import Mathlib

/-!
# Colordle — verification of the core puzzle logic

Shallow embedding of the Color-dle repository's core logic:
`src/app/utils/colorUtils.ts` (grid generation, HSL→hex conversion,
position lookup, proximity) and `src/app/page.tsx` (the session
controller `handleColorClick` and the localStorage-backed daily state
store `loadGameState` / `saveGameState`).

Modelling conventions:
* JavaScript strings are sequences of UTF-16 code units, modelled as
  `List Nat`; `toLowerCase`/`toUpperCase` are modelled by their ASCII
  action (all color strings the program manipulates are ASCII).
* JavaScript numbers are IEEE-754 binary64.  The HSL→hex path is
  genuinely sensitive to this (e.g. at lightness 95 the exact real
  channel value is 229.5 but the doubles compute 229.49999999999997,
  so `Math.round` gives 229, not 230), so binary64 arithmetic is
  modelled exactly: a finite double is a dyadic rational
  `mantissa · 2^exponent`, and each arithmetic operation is the exact
  result rounded to 53 bits, nearest-even — see `JSNumber`,
  `roundMant` and the `f…` operations.  Exponent overflow and
  subnormals are unreachable on every value this development computes
  and are not modelled.  The session/storage layers use only integer
  arithmetic, exact in binary64, so they stay on `Nat`/`Int`.
* `Math.sqrt` in the nearest-color search is only used inside strict
  comparisons of distances; since the squared distances are integers
  below 3·255², their square roots are strictly ordered exactly as the
  squares are, so the comparisons are modelled on squared distances.
* `localStorage` holds at most the one record under the fixed key, so
  the store is an `Option` of the record's value; a stored string that
  `JSON.parse` rejects is the value `StoredRecord.corrupt`.
-/

set_option maxRecDepth 100000
set_option maxHeartbeats 4000000

namespace Colordle

/-- A JavaScript string: its list of UTF-16 code units. -/
abbrev JSStr := List Nat

/-- `String.prototype.toLowerCase` on one ASCII code unit
(`A`–`Z` map to `a`–`z`; everything else is fixed). -/
def jsToLowerChar (n : Nat) : Nat := if 65 ≤ n ∧ n ≤ 90 then n + 32 else n

/-- `String.prototype.toLowerCase` (ASCII action). -/
def jsToLower (s : JSStr) : JSStr := s.map jsToLowerChar

/-- `String.prototype.toUpperCase` on one ASCII code unit. -/
def jsToUpperChar (n : Nat) : Nat := if 97 ≤ n ∧ n ≤ 122 then n - 32 else n

/-- `String.prototype.toUpperCase` (ASCII action). -/
def jsToUpper (s : JSStr) : JSStr := s.map jsToUpperChar

/-- `colorUtils.ts`: `interface Position { row; col }`. -/
structure Position where
  row : Int
  col : Int
deriving DecidableEq

/-- One lowercase hexadecimal digit, as `Number.prototype.toString(16)`
produces it. -/
def hexDigitCode (d : Nat) : Nat := if d < 10 then 48 + d else 87 + d

/-- The digit string of `n` in base 16 (lowercase), with explicit fuel
(`fuel = n + 1` always suffices). -/
def natToHexAux : Nat → Nat → List Nat
  | 0, _ => []
  | fuel + 1, n =>
    if n < 16 then [hexDigitCode n]
    else natToHexAux fuel (n / 16) ++ [hexDigitCode (n % 16)]

/-- `v.toString(16)` for an integer `v` (negative values render with a
leading `-`, as in JavaScript). -/
def jsToString16 (v : Int) : JSStr :=
  if v < 0 then 45 :: natToHexAux (v.natAbs + 1) v.natAbs
  else natToHexAux (v.natAbs + 1) v.natAbs

/-- `String.prototype.padStart(2, "0")`. -/
def padStart2 (s : JSStr) : JSStr := List.replicate (2 - s.length) 48 ++ s

/-- A finite IEEE-754 binary64 value, represented exactly as the
dyadic rational `mantissa · 2 ^ exponent` (not necessarily
normalized; every rounded result carries at most 53 mantissa
bits). -/
abbrev JSNumber := Int × Int

/-- The bit length of `n` (`0` for `0`), by structural recursion on a
fuel for which `n + 1` always suffices. -/
def bitsAux : Nat → Nat → Nat
  | 0, _ => 0
  | fuel + 1, n => if n = 0 then 0 else bitsAux fuel (n / 2) + 1

/-- The bit length of `n`. -/
def bits (n : Nat) : Nat := bitsAux (n + 1) n

/-- Round the value `±(q + ε) · 2 ^ e` (`ε = 0` when `sticky` is
false, `0 < ε < 1` when it is true) to the nearest binary64 value,
ties to the even mantissa.  Every caller passing `sticky` supplies a
`q` of at least 55 bits (`fdiv` below), so the `≤ 53`-bit branch is
always exact.  All values this development evaluates stay far inside
the normal exponent range, so overflow and subnormals need no
modelling. -/
def roundMant (neg : Bool) (q : Nat) (sticky : Bool) (e : Int) : JSNumber :=
  let b := bits q
  if b ≤ 53 then (if neg then -(q : Int) else (q : Int), e)
  else
    let k := b - 53
    let top := q / 2 ^ k
    let rem := q % 2 ^ k
    let half := 2 ^ (k - 1)
    let up : Bool :=
      if half < rem then true
      else if rem < half then false
      else if sticky then true
      else decide (top % 2 = 1)
    let m := if up then top + 1 else top
    (if neg then -(m : Int) else (m : Int), e + k)

/-- Round an exact dyadic `m · 2 ^ e` to binary64. -/
def roundDyadic (m : Int) (e : Int) : JSNumber :=
  roundMant (decide (m < 0)) m.natAbs false e

/-- The two mantissas brought to the common (smaller) exponent. -/
def align (x y : JSNumber) : Int × Int × Int :=
  let e := min x.2 y.2
  (x.1 * ((2 ^ ((x.2 - e).toNat) : Nat) : Int),
   y.1 * ((2 ^ ((y.2 - e).toNat) : Nat) : Int), e)

/-- A small integer as a binary64 value (exact). -/
def fnum (n : Int) : JSNumber := (n, 0)

/-- binary64 addition: exact sum, then one rounding. -/
def fadd (x y : JSNumber) : JSNumber :=
  let a := align x y
  roundDyadic (a.1 + a.2.1) a.2.2

/-- binary64 negation (exact). -/
def fneg (x : JSNumber) : JSNumber := (-x.1, x.2)

/-- binary64 subtraction. -/
def fsub (x y : JSNumber) : JSNumber := fadd x (fneg y)

/-- binary64 multiplication: exact product, then one rounding. -/
def fmul (x y : JSNumber) : JSNumber := roundDyadic (x.1 * y.1) (x.2 + y.2)

/-- binary64 division, correctly rounded: the quotient is computed to
at least 55 bits and a nonzero remainder enters as the sticky bit. -/
def fdiv (x y : JSNumber) : JSNumber :=
  if y.1 = 0 then (0, 0)
  else
    let neg := decide (x.1 < 0) != decide (y.1 < 0)
    let a := x.1.natAbs
    let b := y.1.natAbs
    let shift := 55 + bits b
    let az := a * 2 ^ shift
    roundMant neg (az / b) (decide (az % b ≠ 0)) (x.2 - y.2 - shift)

/-- `Math.abs` (exact). -/
def fabs (x : JSNumber) : JSNumber := (|x.1|, x.2)

/-- JavaScript's `%` on binary64: `x − y · trunc(x / y)`, which the
IEEE remainder computes exactly (no rounding step). -/
def fmod (x y : JSNumber) : JSNumber :=
  let a := align x y
  (a.1 - a.2.1 * (a.1.tdiv a.2.1), a.2.2)

/-- `x < y` on binary64 values. -/
def flt (x y : JSNumber) : Bool :=
  let a := align x y
  decide (a.1 < a.2.1)

/-- `x <= y` on binary64 values. -/
def fle (x y : JSNumber) : Bool :=
  let a := align x y
  decide (a.1 ≤ a.2.1)

/-- `Math.round`: the integer nearest to the double's exact value,
ties toward `+∞`, i.e. `⌊value + 1/2⌋` taken over the exact dyadic
value (ECMAScript specifies the rounding on the number's mathematical
value, not as float `⌊x + 0.5⌋`). -/
def jsRound (x : JSNumber) : Int :=
  if 0 ≤ x.2 then x.1 * ((2 ^ x.2.toNat : Nat) : Int)
  else
    let k := (-x.2).toNat
    (x.1 + ((2 ^ (k - 1) : Nat) : Int)).fdiv ((2 ^ k : Nat) : Int)

/-- `colorUtils.ts`: `hslToHex(h, s, l)`, computed in binary64
exactly as the source writes it: `s /= 100`, `l /= 100`,
`c = (1 − |2l − 1|)·s`, `x = c·(1 − |((h/60) mod 2) − 1|)`,
`m = l − c/2`, the six 60°-sector selection on `h`, and
`Math.round((channel + m) * 255)` rendered as two lowercase hex
digits, the whole string uppercased behind `#`. -/
def hslToHex (h s l : JSNumber) : JSStr :=
  let s := fdiv s (fnum 100)
  let l := fdiv l (fnum 100)
  let c := fmul (fsub (fnum 1) (fabs (fsub (fmul (fnum 2) l) (fnum 1)))) s
  let x := fmul c (fsub (fnum 1) (fabs (fsub (fmod (fdiv h (fnum 60)) (fnum 2)) (fnum 1))))
  let m := fsub l (fdiv c (fnum 2))
  let rgb : JSNumber × JSNumber × JSNumber :=
    if fle (fnum 0) h && flt h (fnum 60) then (c, x, fnum 0)
    else if fle (fnum 60) h && flt h (fnum 120) then (x, c, fnum 0)
    else if fle (fnum 120) h && flt h (fnum 180) then (fnum 0, c, x)
    else if fle (fnum 180) h && flt h (fnum 240) then (fnum 0, x, c)
    else if fle (fnum 240) h && flt h (fnum 300) then (x, fnum 0, c)
    else if fle (fnum 300) h && flt h (fnum 360) then (c, fnum 0, x)
    else (fnum 0, fnum 0, fnum 0)
  let rHex := padStart2 (jsToString16 (jsRound (fmul (fadd rgb.1 m) (fnum 255))))
  let gHex := padStart2 (jsToString16 (jsRound (fmul (fadd rgb.2.1 m) (fnum 255))))
  let bHex := padStart2 (jsToString16 (jsRound (fmul (fadd rgb.2.2 m) (fnum 255))))
  jsToUpper (35 :: (rHex ++ gHex ++ bHex))

/-- `colorUtils.ts`: `generateColorGrid()` — 16 rows by 20 columns,
row-major; hue `(col / cols) * 360` in binary64, saturation 100
throughout, lightness `95 − row·10` on the top four rows and
`60 − (row − 4)·4` below (exact integer arithmetic, exact in
binary64). -/
def generateColorGrid : List JSStr :=
  (List.range 16).flatMap fun row =>
    (List.range 20).map fun col =>
      let hue := fmul (fdiv (fnum col) (fnum 20)) (fnum 360)
      if row < 4 then hslToHex hue (fnum 100) (fnum (95 - row * 10))
      else hslToHex hue (fnum 100) (fnum (60 - (row - 4) * 4))

/-- The 320 strings `generateColorGrid` computes (the program's
grid, pinned as a literal by `generateColorGrid_eq` so later proofs
need not re-evaluate the generator), row-major from `#FFE5E5`. -/
def colordleGrid : List JSStr :=
  [[35, 70, 70, 69, 53, 69, 53], [35, 70, 70, 69, 68, 69, 53], [35, 70, 70, 70, 53, 69, 53], [35, 70, 70, 70, 67, 69, 53],
   [35, 70, 65, 70, 70, 69, 53], [35, 70, 50, 70, 70, 69, 53], [35, 69, 66, 70, 70, 69, 53], [35, 69, 53, 70, 70, 69, 56],
   [35, 69, 53, 70, 70, 70, 48], [35, 69, 53, 70, 70, 70, 55], [35, 69, 53, 70, 70, 70, 70], [35, 69, 53, 70, 55, 70, 70],
   [35, 69, 53, 70, 48, 70, 70], [35, 69, 53, 69, 56, 70, 70], [35, 69, 66, 69, 53, 70, 70], [35, 70, 50, 69, 53, 70, 70],
   [35, 70, 65, 69, 53, 70, 70], [35, 70, 70, 69, 53, 70, 67], [35, 70, 70, 69, 53, 70, 53], [35, 70, 70, 69, 53, 69, 68],
   [35, 70, 70, 66, 51, 66, 51], [35, 70, 70, 67, 57, 66, 51], [35, 70, 70, 69, 48, 66, 51], [35, 70, 70, 70, 55, 66, 51],
   [35, 70, 48, 70, 70, 66, 51], [35, 68, 57, 70, 70, 66, 51], [35, 67, 50, 70, 70, 66, 51], [35, 66, 51, 70, 70, 66, 65],
   [35, 66, 51, 70, 70, 68, 49], [35, 66, 51, 70, 70, 69, 56], [35, 66, 51, 70, 70, 70, 70], [35, 66, 51, 69, 56, 70, 70],
   [35, 66, 51, 68, 49, 70, 70], [35, 66, 51, 66, 65, 70, 70], [35, 67, 50, 66, 51, 70, 70], [35, 68, 57, 66, 51, 70, 70],
   [35, 70, 48, 66, 51, 70, 70], [35, 70, 70, 66, 51, 70, 55], [35, 70, 70, 66, 51, 69, 48], [35, 70, 70, 66, 51, 67, 57],
   [35, 70, 70, 56, 48, 56, 48], [35, 70, 70, 65, 54, 56, 48], [35, 70, 70, 67, 67, 56, 48], [35, 70, 70, 70, 50, 56, 48],
   [35, 69, 54, 70, 70, 56, 48], [35, 66, 70, 70, 70, 56, 48], [35, 57, 57, 70, 70, 56, 48], [35, 56, 48, 70, 70, 56, 67],
   [35, 56, 48, 70, 70, 66, 51], [35, 56, 48, 70, 70, 68, 57], [35, 56, 48, 70, 70, 70, 70], [35, 56, 48, 68, 57, 70, 70],
   [35, 56, 48, 66, 51, 70, 70], [35, 56, 48, 56, 67, 70, 70], [35, 57, 57, 56, 48, 70, 70], [35, 66, 70, 56, 48, 70, 70],
   [35, 69, 53, 56, 48, 70, 70], [35, 70, 70, 56, 48, 70, 50], [35, 70, 70, 56, 48, 67, 67], [35, 70, 70, 56, 48, 65, 54],
   [35, 70, 70, 52, 68, 52, 68], [35, 70, 70, 56, 50, 52, 68], [35, 70, 70, 66, 56, 52, 68], [35, 70, 70, 69, 68, 52, 68],
   [35, 68, 66, 70, 70, 52, 68], [35, 65, 54, 70, 70, 52, 68], [35, 55, 48, 70, 70, 52, 68], [35, 52, 68, 70, 70, 53, 69],
   [35, 52, 68, 70, 70, 57, 52], [35, 52, 68, 70, 70, 67, 57], [35, 52, 68, 70, 70, 70, 70], [35, 52, 68, 67, 57, 70, 70],
   [35, 52, 68, 57, 52, 70, 70], [35, 52, 68, 53, 69, 70, 70], [35, 55, 48, 52, 68, 70, 70], [35, 65, 54, 52, 68, 70, 70],
   [35, 68, 66, 52, 68, 70, 70], [35, 70, 70, 52, 68, 69, 68], [35, 70, 70, 52, 68, 66, 56], [35, 70, 70, 52, 68, 56, 50],
   [35, 70, 70, 51, 51, 51, 51], [35, 70, 70, 55, 48, 51, 51], [35, 70, 70, 65, 68, 51, 51], [35, 70, 70, 69, 66, 51, 51],
   [35, 68, 54, 70, 70, 51, 51], [35, 57, 57, 70, 70, 51, 51], [35, 53, 67, 70, 70, 51, 51], [35, 51, 51, 70, 70, 52, 55],
   [35, 51, 51, 70, 70, 56, 53], [35, 51, 51, 70, 70, 67, 50], [35, 51, 51, 70, 70, 70, 70], [35, 51, 51, 67, 50, 70, 70],
   [35, 51, 51, 56, 53, 70, 70], [35, 51, 51, 52, 55, 70, 70], [35, 53, 67, 51, 51, 70, 70], [35, 57, 57, 51, 51, 70, 70],
   [35, 68, 54, 51, 51, 70, 70], [35, 70, 70, 51, 51, 69, 66], [35, 70, 70, 51, 51, 65, 68], [35, 70, 70, 51, 51, 55, 48],
   [35, 70, 70, 49, 70, 49, 70], [35, 70, 70, 54, 50, 49, 70], [35, 70, 70, 65, 53, 49, 70], [35, 70, 70, 69, 57, 49, 70],
   [35, 68, 50, 70, 70, 49, 70], [35, 56, 70, 70, 70, 49, 70], [35, 52, 66, 70, 70, 49, 70], [35, 49, 70, 70, 70, 51, 53],
   [35, 49, 70, 70, 70, 55, 56], [35, 49, 70, 70, 70, 66, 67], [35, 49, 70, 70, 70, 70, 70], [35, 49, 70, 66, 67, 70, 70],
   [35, 49, 70, 55, 56, 70, 70], [35, 49, 70, 51, 53, 70, 70], [35, 52, 66, 49, 70, 70, 70], [35, 56, 70, 49, 70, 70, 70],
   [35, 68, 50, 49, 70, 70, 70], [35, 70, 70, 49, 70, 69, 57], [35, 70, 70, 49, 70, 65, 53], [35, 70, 70, 49, 70, 54, 50],
   [35, 70, 70, 48, 65, 48, 65], [35, 70, 70, 53, 52, 48, 65], [35, 70, 70, 57, 68, 48, 65], [35, 70, 70, 69, 55, 48, 65],
   [35, 67, 69, 70, 70, 48, 65], [35, 56, 53, 70, 70, 48, 65], [35, 51, 66, 70, 70, 48, 65], [35, 48, 65, 70, 70, 50, 51],
   [35, 48, 65, 70, 70, 54, 67], [35, 48, 65, 70, 70, 66, 54], [35, 48, 65, 70, 70, 70, 70], [35, 48, 65, 66, 54, 70, 70],
   [35, 48, 65, 54, 67, 70, 70], [35, 48, 65, 50, 51, 70, 70], [35, 51, 66, 48, 65, 70, 70], [35, 56, 53, 48, 65, 70, 70],
   [35, 67, 69, 48, 65, 70, 70], [35, 70, 70, 48, 65, 69, 55], [35, 70, 70, 48, 65, 57, 68], [35, 70, 70, 48, 65, 53, 52],
   [35, 70, 53, 48, 48, 48, 48], [35, 70, 53, 52, 57, 48, 48], [35, 70, 53, 57, 51, 48, 48], [35, 70, 53, 68, 67, 48, 48],
   [35, 67, 52, 70, 53, 48, 48], [35, 55, 65, 70, 53, 48, 48], [35, 51, 49, 70, 53, 48, 48], [35, 48, 48, 70, 53, 49, 56],
   [35, 48, 48, 70, 53, 54, 50], [35, 48, 48, 70, 53, 65, 66], [35, 48, 48, 70, 53, 70, 53], [35, 48, 48, 65, 66, 70, 53],
   [35, 48, 48, 54, 50, 70, 53], [35, 48, 48, 49, 56, 70, 53], [35, 51, 49, 48, 48, 70, 53], [35, 55, 65, 48, 48, 70, 53],
   [35, 67, 52, 48, 48, 70, 53], [35, 70, 53, 48, 48, 68, 67], [35, 70, 53, 48, 48, 57, 51], [35, 70, 53, 48, 48, 52, 57],
   [35, 69, 48, 48, 48, 48, 48], [35, 69, 48, 52, 51, 48, 48], [35, 69, 48, 56, 55, 48, 48], [35, 69, 48, 67, 65, 48, 48],
   [35, 66, 52, 69, 48, 48, 48], [35, 55, 48, 69, 48, 48, 48], [35, 50, 68, 69, 48, 48, 48], [35, 48, 48, 69, 48, 49, 54],
   [35, 48, 48, 69, 48, 53, 65], [35, 48, 48, 69, 48, 57, 68], [35, 48, 48, 69, 48, 69, 48], [35, 48, 48, 57, 68, 69, 48],
   [35, 48, 48, 53, 65, 69, 48], [35, 48, 48, 49, 54, 69, 48], [35, 50, 68, 48, 48, 69, 48], [35, 55, 48, 48, 48, 69, 48],
   [35, 66, 52, 48, 48, 69, 48], [35, 69, 48, 48, 48, 67, 65], [35, 69, 48, 48, 48, 56, 55], [35, 69, 48, 48, 48, 52, 51],
   [35, 67, 67, 48, 48, 48, 48], [35, 67, 67, 51, 68, 48, 48], [35, 67, 67, 55, 65, 48, 48], [35, 67, 67, 66, 56, 48, 48],
   [35, 65, 51, 67, 67, 48, 48], [35, 54, 54, 67, 67, 48, 48], [35, 50, 57, 67, 67, 48, 48], [35, 48, 48, 67, 67, 49, 52],
   [35, 48, 48, 67, 67, 53, 50], [35, 48, 48, 67, 67, 56, 70], [35, 48, 48, 67, 67, 67, 67], [35, 48, 48, 56, 70, 67, 67],
   [35, 48, 48, 53, 50, 67, 67], [35, 48, 48, 49, 52, 67, 67], [35, 50, 57, 48, 48, 67, 67], [35, 54, 54, 48, 48, 67, 67],
   [35, 65, 51, 48, 48, 67, 67], [35, 67, 67, 48, 48, 66, 56], [35, 67, 67, 48, 48, 55, 65], [35, 67, 67, 48, 48, 51, 68],
   [35, 66, 56, 48, 48, 48, 48], [35, 66, 56, 51, 55, 48, 48], [35, 66, 56, 54, 69, 48, 48], [35, 66, 56, 65, 53, 48, 48],
   [35, 57, 51, 66, 56, 48, 48], [35, 53, 67, 66, 56, 48, 48], [35, 50, 53, 66, 56, 48, 48], [35, 48, 48, 66, 56, 49, 50],
   [35, 48, 48, 66, 56, 52, 57], [35, 48, 48, 66, 56, 56, 49], [35, 48, 48, 66, 56, 66, 56], [35, 48, 48, 56, 49, 66, 56],
   [35, 48, 48, 52, 57, 66, 56], [35, 48, 48, 49, 50, 66, 56], [35, 50, 53, 48, 48, 66, 56], [35, 53, 67, 48, 48, 66, 56],
   [35, 57, 51, 48, 48, 66, 56], [35, 66, 56, 48, 48, 65, 53], [35, 66, 56, 48, 48, 54, 69], [35, 66, 56, 48, 48, 51, 55],
   [35, 65, 51, 48, 48, 48, 48], [35, 65, 51, 51, 49, 48, 48], [35, 65, 51, 54, 50, 48, 48], [35, 65, 51, 57, 51, 48, 48],
   [35, 56, 51, 65, 51, 48, 48], [35, 53, 50, 65, 51, 48, 48], [35, 50, 49, 65, 51, 48, 48], [35, 48, 48, 65, 51, 49, 48],
   [35, 48, 48, 65, 51, 52, 49], [35, 48, 48, 65, 51, 55, 50], [35, 48, 48, 65, 51, 65, 51], [35, 48, 48, 55, 50, 65, 51],
   [35, 48, 48, 52, 49, 65, 51], [35, 48, 48, 49, 48, 65, 51], [35, 50, 49, 48, 48, 65, 51], [35, 53, 50, 48, 48, 65, 51],
   [35, 56, 51, 48, 48, 65, 51], [35, 65, 51, 48, 48, 57, 51], [35, 65, 51, 48, 48, 54, 50], [35, 65, 51, 48, 48, 51, 49],
   [35, 56, 70, 48, 48, 48, 48], [35, 56, 70, 50, 66, 48, 48], [35, 56, 70, 53, 54, 48, 48], [35, 56, 70, 56, 49, 48, 48],
   [35, 55, 50, 56, 70, 48, 48], [35, 52, 55, 56, 70, 48, 48], [35, 49, 68, 56, 70, 48, 48], [35, 48, 48, 56, 70, 48, 69],
   [35, 48, 48, 56, 70, 51, 57], [35, 48, 48, 56, 70, 54, 52], [35, 48, 48, 56, 70, 56, 70], [35, 48, 48, 54, 52, 56, 70],
   [35, 48, 48, 51, 57, 56, 70], [35, 48, 48, 48, 69, 56, 70], [35, 49, 68, 48, 48, 56, 70], [35, 52, 55, 48, 48, 56, 70],
   [35, 55, 50, 48, 48, 56, 70], [35, 56, 70, 48, 48, 56, 49], [35, 56, 70, 48, 48, 53, 54], [35, 56, 70, 48, 48, 50, 66],
   [35, 55, 65, 48, 48, 48, 48], [35, 55, 65, 50, 53, 48, 48], [35, 55, 65, 52, 57, 48, 48], [35, 55, 65, 54, 69, 48, 48],
   [35, 54, 50, 55, 65, 48, 48], [35, 51, 68, 55, 65, 48, 48], [35, 49, 56, 55, 65, 48, 48], [35, 48, 48, 55, 65, 48, 67],
   [35, 48, 48, 55, 65, 51, 49], [35, 48, 48, 55, 65, 53, 54], [35, 48, 48, 55, 65, 55, 65], [35, 48, 48, 53, 54, 55, 65],
   [35, 48, 48, 51, 49, 55, 65], [35, 48, 48, 48, 67, 55, 65], [35, 49, 56, 48, 48, 55, 65], [35, 51, 68, 48, 48, 55, 65],
   [35, 54, 50, 48, 48, 55, 65], [35, 55, 65, 48, 48, 54, 69], [35, 55, 65, 48, 48, 52, 57], [35, 55, 65, 48, 48, 50, 53],
   [35, 54, 54, 48, 48, 48, 48], [35, 54, 54, 49, 70, 48, 48], [35, 54, 54, 51, 68, 48, 48], [35, 54, 54, 53, 67, 48, 48],
   [35, 53, 50, 54, 54, 48, 48], [35, 51, 51, 54, 54, 48, 48], [35, 49, 52, 54, 54, 48, 48], [35, 48, 48, 54, 54, 48, 65],
   [35, 48, 48, 54, 54, 50, 57], [35, 48, 48, 54, 54, 52, 55], [35, 48, 48, 54, 54, 54, 54], [35, 48, 48, 52, 55, 54, 54],
   [35, 48, 48, 50, 57, 54, 54], [35, 48, 48, 48, 65, 54, 54], [35, 49, 52, 48, 48, 54, 54], [35, 51, 51, 48, 48, 54, 54],
   [35, 53, 50, 48, 48, 54, 54], [35, 54, 54, 48, 48, 53, 67], [35, 54, 54, 48, 48, 51, 68], [35, 54, 54, 48, 48, 49, 70],
   [35, 53, 50, 48, 48, 48, 48], [35, 53, 50, 49, 56, 48, 48], [35, 53, 50, 51, 49, 48, 48], [35, 53, 50, 52, 57, 48, 48],
   [35, 52, 49, 53, 50, 48, 48], [35, 50, 57, 53, 50, 48, 48], [35, 49, 48, 53, 50, 48, 48], [35, 48, 48, 53, 50, 48, 56],
   [35, 48, 48, 53, 50, 50, 49], [35, 48, 48, 53, 50, 51, 57], [35, 48, 48, 53, 50, 53, 50], [35, 48, 48, 51, 57, 53, 50],
   [35, 48, 48, 50, 49, 53, 50], [35, 48, 48, 48, 56, 53, 50], [35, 49, 48, 48, 48, 53, 50], [35, 50, 57, 48, 48, 53, 50],
   [35, 52, 49, 48, 48, 53, 50], [35, 53, 50, 48, 48, 52, 57], [35, 53, 50, 48, 48, 51, 49], [35, 53, 50, 48, 48, 49, 56]]

/-- A code unit the pattern `[a-f\d]` with the `i` flag accepts:
a decimal digit or a hex letter of either case. -/
def isHexCharCI (n : Nat) : Bool :=
  decide ((48 ≤ n ∧ n ≤ 57) ∨ (97 ≤ n ∧ n ≤ 102) ∨ (65 ≤ n ∧ n ≤ 70))

/-- The value of one hexadecimal digit, case-insensitively, as
`parseInt(·, 16)` reads it. -/
def hexCharVal (n : Nat) : Nat :=
  if n ≤ 57 then n - 48 else if n ≤ 70 then n - 55 else n - 87

/-- The optional leading `#` (code 35) of the regex `#?…$`: with the
rest of the pattern anchored and `#` not a hex digit, the regex
matches exactly when the string with one leading `#` removed is six
hex digits. -/
def stripHash (s : JSStr) : JSStr :=
  match s with
  | n :: rest => if n = 35 then rest else n :: rest
  | [] => []

/-- The regex `/^#?([a-f\d]{2})([a-f\d]{2})([a-f\d]{2})$/i` of
`hexToRgb`: an optional leading `#` (code 35) followed by exactly six
case-insensitive hex digits; on a match, the three captured byte
values. -/
def jsHexMatch (s : JSStr) : Option (Nat × Nat × Nat) :=
  match stripHash s with
  | [a, b, c, d, e, f] =>
    if isHexCharCI a && isHexCharCI b && isHexCharCI c &&
       isHexCharCI d && isHexCharCI e && isHexCharCI f then
      some (hexCharVal a * 16 + hexCharVal b,
            hexCharVal c * 16 + hexCharVal d,
            hexCharVal e * 16 + hexCharVal f)
    else none
  | _ => none

/-- `colorUtils.ts`: `hexToRgb(hex)` — the matched bytes, or the
fallback `{ r: 0, g: 0, b: 0 }` when the pattern does not match. -/
def hexToRgb (hex : JSStr) : Nat × Nat × Nat :=
  (jsHexMatch hex).getD (0, 0, 0)

/-- The squared Euclidean distance between two RGB triples.  The
source compares `Math.sqrt` of these sums; on integers below 3·255²
the square root is strictly monotone even after floating-point
rounding, so comparisons of the squares are the same comparisons. -/
def distSq (a b : Nat × Nat × Nat) : Int :=
  ((a.1 : Int) - b.1) ^ 2 + ((a.2.1 : Int) - b.2.1) ^ 2 +
    ((a.2.2 : Int) - b.2.2) ^ 2

/-- The `colors.forEach` loop of `findColorPosition`: `idx` is the
index of the head of the remaining list, the accumulator carries
`closestIndex` and `minDistance` (`none` is the initial `Infinity`,
which every distance beats). -/
def closestLoop (target : Nat × Nat × Nat) :
    List JSStr → Nat → Nat × Option Int → Nat × Option Int
  | [], _, acc => acc
  | c :: rest, idx, acc =>
    let d := distSq (hexToRgb c) target
    let acc' := match acc.2 with
      | none => (idx, some d)
      | some m => if d < m then (idx, some d) else acc
    closestLoop target rest (idx + 1) acc'

/-- `Array.prototype.findIndex` over `c.toLowerCase() ===
targetColor.toLowerCase()`, with JavaScript's not-found result `-1`
modelled as `none`. -/
def findIndexCI (targetColor : JSStr) : List JSStr → Option Nat
  | [] => none
  | c :: rest =>
    if jsToLower c == jsToLower targetColor then some 0
    else (findIndexCI targetColor rest).map (· + 1)

/-- `colorUtils.ts`: `findColorPosition(colors, targetColor)` — first
the exact case-insensitive match (`row = ⌊index / 20⌋`,
`col = index % 20`), else the index of the nearest color in RGB space
(`closestIndex` starts at 0, so an empty list yields index 0). -/
def findColorPosition (colors : List JSStr) (targetColor : JSStr) : Position :=
  match findIndexCI targetColor colors with
  | some exactIndex => ⟨(exactIndex / 20 : Nat), (exactIndex % 20 : Nat)⟩
  | none =>
    let targetRgb := hexToRgb targetColor
    let res := closestLoop targetRgb colors 0 (0, none)
    ⟨(res.1 / 20 : Nat), (res.1 % 20 : Nat)⟩

/-- `colorUtils.ts`: `isWithinProximity(guessPos, targetPos,
maxDistance)` — Chebyshev distance, strictly positive and at most
`maxDistance`. -/
def isWithinProximity (guessPos targetPos : Position) (maxDistance : Int) : Bool :=
  let horizontalDistance : Int := (guessPos.col - targetPos.col).natAbs
  let verticalDistance : Int := (guessPos.row - targetPos.row).natAbs
  let distance := max horizontalDistance verticalDistance
  decide (distance ≤ maxDistance) && decide (distance > 0)

/-! ## The session controller of `page.tsx` -/

/-- `page.tsx`: the hardcoded daily color `"#FFB3E0"`. -/
def targetColor : JSStr := [35, 70, 70, 66, 51, 69, 48]

/-- `page.tsx`: `const [colors] = useState(() => generateColorGrid())`. -/
def colors : List JSStr := generateColorGrid

/-- `page.tsx`: `findColorPosition(colors, targetColor)`. -/
def targetPosition : Position := findColorPosition colors targetColor

/-- `page.tsx`: the `gameState` values `"playing" | "won" | "lost"`. -/
inductive GameStatus where
  | playing
  | won
  | lost
deriving DecidableEq

/-- `page.tsx`: `interface Guess { color; isClose; position }`. -/
structure Guess where
  color : JSStr
  isClose : Bool
  position : Position
deriving DecidableEq

/-- The game-relevant component state of `page.tsx`: the `guesses`,
`currentClue` and `gameState` hooks (the remaining hooks drive
animations and the modal, which the spec scopes out). -/
structure SessionState where
  guesses : List Guess
  currentClue : Nat
  gameState : GameStatus
deriving DecidableEq

/-- `page.tsx`: `handleColorClick(color)` — the guard returns
unchanged state; otherwise the new guess is appended and the
`won`/`lost`/next-clue branch runs (the `setTimeout` wrappers and the
celebration/selection effects are presentation timing). -/
def handleColorClick (s : SessionState) (color : JSStr) : SessionState :=
  if s.gameState ≠ .playing ∨ 3 ≤ s.guesses.length then s
  else
    let position := findColorPosition colors color
    let isClose := isWithinProximity position targetPosition 1
    let newGuesses := s.guesses ++ [⟨color, isClose, position⟩]
    if jsToLower color = jsToLower targetColor then
      { s with guesses := newGuesses, gameState := .won }
    else if 3 ≤ newGuesses.length then
      { guesses := newGuesses, currentClue := 3, gameState := .lost }
    else
      { s with guesses := newGuesses, currentClue := newGuesses.length + 1 }

/-! ## The daily state store of `page.tsx` (storageUtils) -/

/-- `storageUtils`: `interface GameState` — the persisted record. -/
structure GameState where
  date : JSStr
  guesses : List Guess
  currentClue : Nat
  gameStatus : GameStatus
  hasSeenInstructions : Bool
deriving DecidableEq

/-- `saveGameState`'s argument type `Omit<GameState, "date">`. -/
structure GameStateInput where
  guesses : List Guess
  currentClue : Nat
  gameStatus : GameStatus
  hasSeenInstructions : Bool
deriving DecidableEq

/-- What `localStorage` can hold under `STORAGE_KEY`: the JSON text of
a `GameState` record, or a string `JSON.parse` rejects. -/
inductive StoredRecord where
  | ok (state : GameState)
  | corrupt
deriving DecidableEq

/-- `storageUtils`: `loadGameState()`, as a function of the stored
value and of today's date key (`getTodayString()`, the UTC
`YYYY-MM-DD` prefix of `toISOString()`).  Returns the reported state
and the storage contents afterwards: a missing record reports `null`;
a record `JSON.parse` throws on lands in the `catch`, which reports
`null` and touches nothing; a record from another day is removed with
`localStorage.removeItem` and `null` is reported. -/
def loadGameState (stored : Option StoredRecord) (today : JSStr) :
    Option GameState × Option StoredRecord :=
  match stored with
  | none => (none, none)
  | some .corrupt => (none, some .corrupt)
  | some (.ok gameState) =>
    if gameState.date ≠ today then (none, none)
    else (some gameState, some (.ok gameState))

/-- `storageUtils`: `saveGameState(state)` — stamps today's date key
onto the record and overwrites the stored value. -/
def saveGameState (state : GameStateInput) (today : JSStr)
    (_stored : Option StoredRecord) : Option StoredRecord :=
  some (.ok { date := today
              guesses := state.guesses
              currentClue := state.currentClue
              gameStatus := state.gameStatus
              hasSeenInstructions := state.hasSeenInstructions })

/-! ## Definitions written from the spec's words (for refinement
statements) -/

/-- Spec: "case-insensitive exact string match". -/
def ciMatches (c q : JSStr) : Bool := jsToLower c == jsToLower q

/-- Spec: a well-formed color — "a 6-hex-digit RGB string,
canonicalized uppercase with leading `#`". -/
def isWellFormedColor (c : JSStr) : Bool :=
  match c with
  | 35 :: rest =>
    rest.length == 6 &&
      rest.all fun n => decide ((48 ≤ n ∧ n ≤ 57) ∨ (65 ≤ n ∧ n ≤ 70))
  | _ => false

/-- The minimum of a list of integers, `none` when empty. -/
def listMin : List Int → Option Int
  | [] => none
  | x :: xs =>
    some (match listMin xs with
      | none => x
      | some m => min x m)

/-- Spec: "return the position of the minimum; ties broken by first
occurrence in scan order" — the first index attaining the minimum
(0 on the empty list). -/
def firstMinIdx : List Int → Nat
  | [] => 0
  | x :: xs =>
    match listMin xs with
    | none => 0
    | some m => if x ≤ m then 0 else 1 + firstMinIdx xs

/-- The distances of the grid entries to a query's RGB value, in scan
order (squared, see `distSq`). -/
def gridDists (grid : List JSStr) (rgb : Nat × Nat × Nat) : List Int :=
  grid.map fun c => distSq (hexToRgb c) rgb

/-! ## Theorems -/

example : hslToHex (fnum 0) (fnum 100) (fnum 95) = [35, 70, 70, 69, 53, 69, 53] := by decide

example : generateColorGrid.length = 320 := by decide

example : targetPosition = ⟨1, 18⟩ := by decide

/-- C3: `isWithinProximity` returns true exactly when the Chebyshev
distance `max |Δrow| |Δcol|` is strictly positive and at most
`maxDistance`; it is false at distance 0 and beyond `maxDistance`, and
symmetric in its first two arguments. -/
theorem isWithinProximity_spec (a b : Position) (maxDistance : Int) :
    (isWithinProximity a b maxDistance = true ↔
      0 < max |a.row - b.row| |a.col - b.col| ∧
        max |a.row - b.row| |a.col - b.col| ≤ maxDistance) ∧
    (max |a.row - b.row| |a.col - b.col| = 0 →
      isWithinProximity a b maxDistance = false) ∧
    (maxDistance < max |a.row - b.row| |a.col - b.col| →
      isWithinProximity a b maxDistance = false) ∧
    isWithinProximity a b maxDistance = isWithinProximity b a maxDistance := by
  simp only [isWithinProximity, Bool.and_eq_true, decide_eq_true_eq,
    Bool.and_eq_false_iff, decide_eq_false_iff_not, Int.abs_eq_natAbs, gt_iff_lt]
  refine ⟨?_, ?_, ?_, ?_⟩
  · constructor
    · rintro ⟨h1, h2⟩; omega
    · rintro ⟨h1, h2⟩; omega
  · intro h; omega
  · intro h; omega
  · have h1 : (a.col - b.col).natAbs = (b.col - a.col).natAbs := by omega
    have h2 : (a.row - b.row).natAbs = (b.row - a.row).natAbs := by omega
    rw [h1, h2]

/-- C2: calling the guess handler when the game is not in the
`playing` state, or when three guesses already exist, changes
nothing. -/
theorem handleColorClick_noop (s : SessionState) (color : JSStr)
    (h : s.gameState ≠ .playing ∨ 3 ≤ s.guesses.length) :
    handleColorClick s color = s := by
  unfold handleColorClick
  rw [if_pos h]

/-- C2 witness: a finished (won) game ignores a further guess. -/
theorem handleColorClick_noop_witness :
    handleColorClick ⟨[], 1, .won⟩ targetColor = ⟨[], 1, .won⟩ :=
  handleColorClick_noop ⟨[], 1, .won⟩ targetColor (Or.inl (by decide))

/-- C7: a persisted record whose date key is not today's is removed
from the storage and `load` reports absent. -/
theorem loadGameState_stale (gs : GameState) (today : JSStr)
    (h : gs.date ≠ today) :
    loadGameState (some (.ok gs)) today = (none, none) := by
  simp only [loadGameState]
  rw [if_pos h]

/-- C7 witness: a record saved under the key `2025-01-01`, loaded on
`2025-01-02`, reports absent and is gone from the storage. -/
theorem loadGameState_stale_witness :
    loadGameState
      (some (.ok { date := [50, 48, 50, 53, 45, 48, 49, 45, 48, 49],
                   guesses := [], currentClue := 1, gameStatus := .playing,
                   hasSeenInstructions := false }))
      [50, 48, 50, 53, 45, 48, 49, 45, 48, 50] = (none, none) :=
  loadGameState_stale _ _ (by decide)

/-- C8 counterexample: on a storage holding an unparseable record,
`load` reports absent but the record is still in the storage
afterwards — it is not discarded (contrast `loadGameState_stale`,
where `removeItem` runs; the `catch` branch for a `JSON.parse` failure
only returns `null`). -/
theorem loadGameState_corrupt_kept :
    (loadGameState (some .corrupt) [50, 48, 50, 53, 45, 48, 49, 45, 48, 49]).1
        = none ∧
      (loadGameState (some .corrupt) [50, 48, 50, 53, 45, 48, 49, 45, 48, 49]).2
        ≠ none := by
  exact ⟨rfl, by decide⟩

/-- C8 (amended): `load` on a record that fails to deserialize never
throws to the caller (it is a total function of the storage) and
reports absent exactly as if no record existed, but the corrupt record
remains in the underlying storage. -/
theorem loadGameState_corrupt (today : JSStr) :
    loadGameState (some .corrupt) today = (none, some .corrupt) := rfl

/-- C9: saving a (date-less) state and loading it on the same day
reports exactly that state with today's date key added, and the
storage keeps the saved record. -/
theorem save_load_roundtrip (s : GameStateInput) (today : JSStr)
    (stored : Option StoredRecord) :
    loadGameState (saveGameState s today stored) today =
      (some { date := today, guesses := s.guesses, currentClue := s.currentClue,
              gameStatus := s.gameStatus,
              hasSeenInstructions := s.hasSeenInstructions },
       saveGameState s today stored) := by
  unfold loadGameState saveGameState
  simp

/-- C1: a guess submitted while the game is `playing` with fewer than
three guesses appends the new `Guess` — its position from
`findColorPosition`, its closeness from `isWithinProximity` at
distance 1 against the target position — and then: a case-insensitive
match with the target color wins; otherwise a third guess loses and
forces the clue counter to 3; otherwise the clue counter becomes the
new guess count plus one. -/
theorem handleColorClick_guess (s : SessionState) (color : JSStr)
    (hPlaying : s.gameState = .playing) (hLen : s.guesses.length < 3) :
    (handleColorClick s color).guesses =
        s.guesses ++ [{ color := color,
                        isClose := isWithinProximity (findColorPosition colors color)
                          targetPosition 1,
                        position := findColorPosition colors color }] ∧
    (jsToLower color = jsToLower targetColor →
      (handleColorClick s color).gameState = .won) ∧
    (¬jsToLower color = jsToLower targetColor → s.guesses.length + 1 = 3 →
      (handleColorClick s color).gameState = .lost ∧
        (handleColorClick s color).currentClue = 3) ∧
    (¬jsToLower color = jsToLower targetColor → s.guesses.length + 1 < 3 →
      (handleColorClick s color).gameState = .playing ∧
        (handleColorClick s color).currentClue = s.guesses.length + 1 + 1) := by
  have hguard : ¬(s.gameState ≠ .playing ∨ 3 ≤ s.guesses.length) := by
    push_neg
    exact ⟨hPlaying, hLen⟩
  simp only [handleColorClick, if_neg hguard]
  by_cases hc : jsToLower color = jsToLower targetColor
  · rw [if_pos hc]
    exact ⟨rfl, fun _ => rfl, fun hnc _ => absurd hc hnc, fun hnc _ => absurd hc hnc⟩
  · rw [if_neg hc]
    have hlen1 :
        (s.guesses ++ [(⟨color,
            isWithinProximity (findColorPosition colors color) targetPosition 1,
            findColorPosition colors color⟩ : Guess)]).length =
          s.guesses.length + 1 := by
      simp
    by_cases h3 : s.guesses.length + 1 = 3
    · rw [if_pos (by rw [hlen1]; omega)]
      exact ⟨rfl, fun hcc => absurd hcc hc, fun _ _ => ⟨rfl, rfl⟩,
        fun _ hlt => absurd h3 (by omega)⟩
    · rw [if_neg (by rw [hlen1]; omega)]
      refine ⟨rfl, fun hcc => absurd hcc hc, fun _ heq => absurd heq h3,
        fun _ _ => ⟨hPlaying, ?_⟩⟩
      simp only [hlen1]

/-- C1 witness: the first guess of a fresh session, at the target
color itself, is appended with its computed position and closeness and
wins the game. -/
theorem handleColorClick_guess_witness :
    (handleColorClick ⟨[], 1, .playing⟩ targetColor).guesses =
        [] ++ [{ color := targetColor,
                 isClose := isWithinProximity (findColorPosition colors targetColor)
                   targetPosition 1,
                 position := findColorPosition colors targetColor }] ∧
    (jsToLower targetColor = jsToLower targetColor →
      (handleColorClick ⟨[], 1, .playing⟩ targetColor).gameState = .won) ∧
    (¬jsToLower targetColor = jsToLower targetColor → ([] : List Guess).length + 1 = 3 →
      (handleColorClick ⟨[], 1, .playing⟩ targetColor).gameState = .lost ∧
        (handleColorClick ⟨[], 1, .playing⟩ targetColor).currentClue = 3) ∧
    (¬jsToLower targetColor = jsToLower targetColor → ([] : List Guess).length + 1 < 3 →
      (handleColorClick ⟨[], 1, .playing⟩ targetColor).gameState = .playing ∧
        (handleColorClick ⟨[], 1, .playing⟩ targetColor).currentClue =
          ([] : List Guess).length + 1 + 1) :=
  handleColorClick_guess ⟨[], 1, .playing⟩ targetColor rfl (by decide)

/-- The generator's output, evaluated once through the kernel against
the pinned literal (shared by the grid theorems below). -/
theorem generateColorGrid_eq : generateColorGrid = colordleGrid := by decide

/-- C5: `generateColorGrid` is a fixed list (a pure constant, hence
the same sequence on every call — pinned entry for entry by
`colordleGrid`) of exactly 16 × 20 = 320 colors, each a well-formed
uppercase six-hex-digit string with a leading `#`, and the entry at
index `row·20 + col` is the binary64 HSL→hex conversion of hue
`(col/20)·360`, saturation 100, and lightness `95 − row·10` on rows
0–3 and `60 − (row−4)·4` on rows 4–15. -/
theorem generateColorGrid_spec :
    generateColorGrid = colordleGrid ∧
    generateColorGrid.length = 16 * 20 ∧
    (∀ c ∈ generateColorGrid, isWellFormedColor c = true) ∧
    (∀ row < 16, ∀ col < 20,
      generateColorGrid.getD (row * 20 + col) [] =
        if row < 4 then
          hslToHex (fmul (fdiv (fnum col) (fnum 20)) (fnum 360)) (fnum 100)
            (fnum (95 - row * 10))
        else
          hslToHex (fmul (fdiv (fnum col) (fnum 20)) (fnum 360)) (fnum 100)
            (fnum (60 - (row - 4) * 4))) := by
  refine ⟨generateColorGrid_eq, ?_, ?_, ?_⟩
  · rw [generateColorGrid_eq]; decide
  · rw [generateColorGrid_eq]; decide
  · simp only [generateColorGrid_eq]
    decide

/-- C6: the 320 colors of the grid are pairwise distinct (checked on
the grid's entries coded as base-256 numbers, which map of equal
strings would equate). -/
theorem generateColorGrid_nodup : generateColorGrid.Nodup := by
  rw [generateColorGrid_eq]
  exact List.Nodup.of_map (fun c => c.foldl (fun a n => 256 * a + n) 0) (by decide)


/-! ## Supporting lemmas for the position lookup -/

theorem listMin_none_iff (ds : List Int) : listMin ds = none ↔ ds = [] := by
  cases ds <;> simp [listMin]

theorem listMin_cons_none (x : Int) (xs : List Int) (h : listMin xs = none) :
    listMin (x :: xs) = some x := by
  rw [listMin, h]

theorem listMin_cons_some (x : Int) (xs : List Int) (m : Int) (h : listMin xs = some m) :
    listMin (x :: xs) = some (min x m) := by
  rw [listMin, h]

theorem firstMinIdx_cons_none (x : Int) (xs : List Int) (h : listMin xs = none) :
    firstMinIdx (x :: xs) = 0 := by
  rw [firstMinIdx, h]

theorem firstMinIdx_cons_some (x : Int) (xs : List Int) (m : Int) (h : listMin xs = some m) :
    firstMinIdx (x :: xs) = if x ≤ m then 0 else 1 + firstMinIdx xs := by
  rw [firstMinIdx, h]

theorem listMin_le (ds : List Int) : ∀ (m : Int), listMin ds = some m →
    ∀ j, j < ds.length → m ≤ ds.getD j 0 := by
  induction ds with
  | nil => intro m h; simp [listMin] at h
  | cons x xs ih =>
    intro m h j hj
    cases hxs : listMin xs with
    | none =>
      rw [listMin_cons_none x xs hxs] at h
      injection h with h
      rw [(listMin_none_iff xs).mp hxs] at hj ⊢
      cases j with
      | zero => rw [List.getD_cons_zero]; omega
      | succ j => simp at hj
    | some mr =>
      rw [listMin_cons_some x xs mr hxs] at h
      injection h with h
      cases j with
      | zero => rw [List.getD_cons_zero, ← h]; exact min_le_left x mr
      | succ j =>
        rw [List.getD_cons_succ]
        exact le_trans (by rw [← h]; exact min_le_right x mr)
          (ih mr hxs j (by simpa using hj))

theorem firstMinIdx_lt (ds : List Int) (h : ds ≠ []) : firstMinIdx ds < ds.length := by
  induction ds with
  | nil => exact absurd rfl h
  | cons x xs ih =>
    cases hxs : listMin xs with
    | none => rw [firstMinIdx_cons_none x xs hxs]; simp
    | some mr =>
      have hne : xs ≠ [] := by
        intro h0; rw [h0] at hxs; simp [listMin] at hxs
      rw [firstMinIdx_cons_some x xs mr hxs]
      by_cases hx : x ≤ mr
      · rw [if_pos hx]; simp
      · rw [if_neg hx]
        have := ih hne
        simp only [List.length_cons]
        omega

theorem listMin_getD (ds : List Int) (h : ds ≠ []) :
    listMin ds = some (ds.getD (firstMinIdx ds) 0) := by
  induction ds with
  | nil => exact absurd rfl h
  | cons x xs ih =>
    cases hxs : listMin xs with
    | none =>
      rw [listMin_cons_none x xs hxs, firstMinIdx_cons_none x xs hxs, List.getD_cons_zero]
    | some mr =>
      have hne : xs ≠ [] := by
        intro h0; rw [h0] at hxs; simp [listMin] at hxs
      have hval : mr = xs.getD (firstMinIdx xs) 0 := by
        have h2 := ih hne; rw [hxs] at h2; injection h2
      rw [listMin_cons_some x xs mr hxs, firstMinIdx_cons_some x xs mr hxs]
      by_cases hx : x ≤ mr
      · rw [if_pos hx, List.getD_cons_zero, min_eq_left hx]
      · rw [if_neg hx, Nat.add_comm 1 (firstMinIdx xs), List.getD_cons_succ,
          min_eq_right (le_of_not_le hx), hval]

theorem firstMinIdx_first (ds : List Int) : ∀ j, j < ds.length →
    ds.getD j 0 = ds.getD (firstMinIdx ds) 0 → firstMinIdx ds ≤ j := by
  induction ds with
  | nil => intro j hj; simp at hj
  | cons x xs ih =>
    intro j hj hval
    cases hxs : listMin xs with
    | none => rw [firstMinIdx_cons_none x xs hxs]; omega
    | some mr =>
      have hne : xs ≠ [] := by
        intro h0; rw [h0] at hxs; simp [listMin] at hxs
      have hmr : mr = xs.getD (firstMinIdx xs) 0 := by
        have h2 := listMin_getD xs hne; rw [hxs] at h2; injection h2
      rw [firstMinIdx_cons_some x xs mr hxs] at hval ⊢
      by_cases hx : x ≤ mr
      · rw [if_pos hx]; omega
      · rw [if_neg hx] at hval ⊢
        cases j with
        | zero =>
          rw [List.getD_cons_zero, Nat.add_comm 1 (firstMinIdx xs),
            List.getD_cons_succ, ← hmr] at hval
          omega
        | succ j =>
          rw [List.getD_cons_succ, Nat.add_comm 1 (firstMinIdx xs),
            List.getD_cons_succ, ← hmr] at hval
          have := ih j (by simpa using hj) (by rw [hval, hmr])
          omega

theorem gridDists_cons (t : Nat × Nat × Nat) (c : JSStr) (rest : List JSStr) :
    gridDists (c :: rest) t = distSq (hexToRgb c) t :: gridDists rest t := rfl

theorem closestLoop_min (t : Nat × Nat × Nat) :
    ∀ (rest : List JSStr) (idx i0 : Nat) (m0 mr : Int),
    listMin (gridDists rest t) = some mr →
    closestLoop t rest idx (i0, some m0) =
      if mr < m0 then (idx + firstMinIdx (gridDists rest t), some mr)
      else (i0, some m0) := by
  intro rest
  induction rest with
  | nil => intro idx i0 m0 mr h; simp [gridDists, listMin] at h
  | cons c rest ih =>
    intro idx i0 m0 mr h
    rw [gridDists_cons] at h
    simp only [closestLoop]
    cases hrest : listMin (gridDists rest t) with
    | none =>
      have hnil : gridDists rest t = [] := (listMin_none_iff _).mp hrest
      have hrnil : rest = [] := by
        have := hnil; rw [gridDists] at this; exact List.map_eq_nil_iff.mp this
      subst hrnil
      rw [listMin_cons_none _ _ hrest] at h
      injection h with h
      rw [gridDists_cons, firstMinIdx_cons_none _ _ hrest]
      rw [closestLoop]
      by_cases hdm : distSq (hexToRgb c) t < m0
      · rw [if_pos hdm, if_pos (h ▸ hdm), Nat.add_zero]
        rw [h]
      · rw [if_neg hdm, if_neg (h ▸ hdm)]
    | some m' =>
      have hmr : mr = min (distSq (hexToRgb c) t) m' := by
        rw [listMin_cons_some _ _ _ hrest] at h
        injection h with h
        omega
      rw [gridDists_cons, firstMinIdx_cons_some _ _ _ hrest]
      by_cases hdm : distSq (hexToRgb c) t < m0
      · rw [if_pos hdm, ih (idx + 1) idx (distSq (hexToRgb c) t) m' hrest]
        by_cases hmd : m' < distSq (hexToRgb c) t
        · rw [if_pos hmd, if_pos (by omega), if_neg (by omega)]
          exact Prod.ext (by omega) (by simp; omega)
        · rw [if_neg hmd, if_pos (by omega), if_pos (by omega)]
          exact Prod.ext (by omega) (by simp; omega)
      · rw [if_neg hdm, ih (idx + 1) i0 m0 m' hrest]
        by_cases hm' : m' < m0
        · rw [if_pos hm', if_pos (by omega), if_neg (by omega)]
          exact Prod.ext (by omega) (by simp; omega)
        · rw [if_neg hm', if_neg (by omega)]

theorem closestLoop_run (t : Nat × Nat × Nat) (grid : List JSStr) (h : grid ≠ []) :
    (closestLoop t grid 0 (0, none)).1 = firstMinIdx (gridDists grid t) := by
  cases grid with
  | nil => exact absurd rfl h
  | cons c rest =>
    simp only [closestLoop]
    cases hrest : listMin (gridDists rest t) with
    | none =>
      have hrnil : rest = [] := by
        have := (listMin_none_iff _).mp hrest
        rw [gridDists] at this; exact List.map_eq_nil_iff.mp this
      subst hrnil
      rw [closestLoop, gridDists_cons, firstMinIdx_cons_none _ _ hrest]
    | some m' =>
      rw [closestLoop_min t rest 1 0 (distSq (hexToRgb c) t) m' hrest]
      rw [gridDists_cons, firstMinIdx_cons_some _ _ _ hrest]
      by_cases hmd : m' < distSq (hexToRgb c) t
      · rw [if_pos hmd, if_neg (by omega)]
      · rw [if_neg hmd, if_pos (by omega)]

theorem findIndexCI_some (q : JSStr) : ∀ (l : List JSStr) (i : Nat),
    findIndexCI q l = some i →
    i < l.length ∧ ciMatches (l.getD i []) q = true ∧
      ∀ j, j < i → ciMatches (l.getD j []) q = false := by
  intro l
  induction l with
  | nil => intro i h; simp [findIndexCI] at h
  | cons c rest ih =>
    intro i h
    rw [findIndexCI] at h
    by_cases hc : (jsToLower c == jsToLower q) = true
    · rw [if_pos hc] at h
      injection h with h
      subst h
      exact ⟨Nat.succ_pos _, by rw [List.getD_cons_zero]; exact hc,
        fun j hj => absurd hj (Nat.not_lt_zero j)⟩
    · rw [if_neg hc] at h
      cases hr : findIndexCI q rest with
      | none => rw [hr] at h; simp at h
      | some i' =>
        rw [hr] at h
        simp only [Option.map_some'] at h
        injection h with h
        subst h
        obtain ⟨h1, h2, h3⟩ := ih i' hr
        refine ⟨by simpa using Nat.succ_lt_succ h1, by rw [List.getD_cons_succ]; exact h2, ?_⟩
        intro j hj
        cases j with
        | zero =>
          rw [List.getD_cons_zero]
          exact eq_false_of_ne_true hc
        | succ j =>
          rw [List.getD_cons_succ]
          exact h3 j (by omega)

theorem findIndexCI_none (q : JSStr) : ∀ (l : List JSStr),
    findIndexCI q l = none →
    ∀ i, i < l.length → ciMatches (l.getD i []) q = false := by
  intro l
  induction l with
  | nil => intro _ i hi; simp at hi
  | cons c rest ih =>
    intro h i hi
    rw [findIndexCI] at h
    by_cases hc : (jsToLower c == jsToLower q) = true
    · rw [if_pos hc] at h; simp at h
    · rw [if_neg hc] at h
      cases hr : findIndexCI q rest with
      | some i' => rw [hr] at h; simp at h
      | none =>
        cases i with
        | zero => rw [List.getD_cons_zero]; exact eq_false_of_ne_true hc
        | succ i => rw [List.getD_cons_succ]; exact ih hr i (by simpa using hi)

theorem findColorPosition_fallback (grid : List JSStr) (q : JSStr)
    (hnone : findIndexCI q grid = none) (hne : grid ≠ []) :
    firstMinIdx (gridDists grid (hexToRgb q)) < grid.length ∧
    findColorPosition grid q =
      ⟨((firstMinIdx (gridDists grid (hexToRgb q)) / 20 : Nat) : Int),
       ((firstMinIdx (gridDists grid (hexToRgb q)) % 20 : Nat) : Int)⟩ := by
  have hlen : (gridDists grid (hexToRgb q)).length = grid.length := by
    rw [gridDists, List.length_map]
  have hdne : gridDists grid (hexToRgb q) ≠ [] := by
    intro h0; rw [gridDists] at h0; exact hne (List.map_eq_nil_iff.mp h0)
  constructor
  · rw [← hlen]; exact firstMinIdx_lt _ hdne
  · simp only [findColorPosition, hnone]
    rw [closestLoop_run (hexToRgb q) grid hne]

/-- C4: when the query color occurs in the grid under
case-insensitive comparison, `findColorPosition` returns the first
occurrence's index as `⟨index / 20, index % 20⟩`; when it does not
occur, it returns that encoding of the index of the entry at minimum
RGB distance (squared Euclidean, see `distSq`), ties broken by first
occurrence in scan order; and on the empty grid it returns the
position of index 0. -/
theorem findColorPosition_spec (grid : List JSStr) (q : JSStr) :
    ((∃ i, i < grid.length ∧ ciMatches (grid.getD i []) q = true) →
      ∃ i, i < grid.length ∧ ciMatches (grid.getD i []) q = true ∧
        (∀ j, j < i → ciMatches (grid.getD j []) q = false) ∧
        findColorPosition grid q = ⟨((i / 20 : Nat) : Int), ((i % 20 : Nat) : Int)⟩) ∧
    ((∀ i, i < grid.length → ciMatches (grid.getD i []) q = false) → grid ≠ [] →
      ∃ i, i < grid.length ∧
        (∀ j, j < grid.length →
          (gridDists grid (hexToRgb q)).getD i 0 ≤ (gridDists grid (hexToRgb q)).getD j 0) ∧
        (∀ j, j < grid.length →
          (gridDists grid (hexToRgb q)).getD j 0 = (gridDists grid (hexToRgb q)).getD i 0 →
            i ≤ j) ∧
        findColorPosition grid q = ⟨((i / 20 : Nat) : Int), ((i % 20 : Nat) : Int)⟩) ∧
    findColorPosition [] q = ⟨0, 0⟩ := by
  refine ⟨?_, ?_, by simp only [findColorPosition, findIndexCI, closestLoop]; rfl⟩
  · rintro ⟨i0, hi0, hm0⟩
    cases hf : findIndexCI q grid with
    | none =>
      refine absurd hm0 ?_
      rw [findIndexCI_none q grid hf i0 hi0]
      simp
    | some i =>
      obtain ⟨h1, h2, h3⟩ := findIndexCI_some q grid i hf
      exact ⟨i, h1, h2, h3, by simp only [findColorPosition, hf]⟩
  · intro hall hne
    cases hf : findIndexCI q grid with
    | some i =>
      obtain ⟨h1, h2, _⟩ := findIndexCI_some q grid i hf
      rw [hall i h1] at h2
      exact absurd h2 (by simp)
    | none =>
      obtain ⟨hlt, heq⟩ := findColorPosition_fallback grid q hf hne
      have hlen : (gridDists grid (hexToRgb q)).length = grid.length := by
        rw [gridDists, List.length_map]
      refine ⟨firstMinIdx (gridDists grid (hexToRgb q)), hlt, ?_, ?_, heq⟩
      · intro j hj
        have hm := listMin_getD (gridDists grid (hexToRgb q)) (by
          intro h0; rw [gridDists] at h0; exact hne (List.map_eq_nil_iff.mp h0))
        exact listMin_le _ _ hm j (by omega)
      · intro j hj hv
        exact firstMinIdx_first _ j (by omega) hv

theorem jsToLowerChar_eq_35 (n : Nat) : jsToLowerChar n = 35 ↔ n = 35 := by
  unfold jsToLowerChar
  split_ifs with h <;> omega

theorem isHexCharCI_lower (n : Nat) : isHexCharCI (jsToLowerChar n) = isHexCharCI n := by
  unfold isHexCharCI jsToLowerChar
  split_ifs with h
  · simp only [decide_eq_decide]; omega
  · rfl

theorem stripHash_lower (s : JSStr) : stripHash (jsToLower s) = jsToLower (stripHash s) := by
  cases s with
  | nil => rfl
  | cons n rest =>
    show stripHash (jsToLowerChar n :: jsToLower rest) = jsToLower (stripHash (n :: rest))
    simp only [stripHash]
    by_cases h : n = 35
    · subst h
      rw [if_pos (by decide : jsToLowerChar 35 = 35), if_pos rfl]
    · rw [if_neg (fun hc => h ((jsToLowerChar_eq_35 n).mp hc)), if_neg h]
      rfl

theorem jsHexMatch_isSome_lower (s : JSStr) :
    (jsHexMatch (jsToLower s)).isSome = (jsHexMatch s).isSome := by
  rw [jsHexMatch, jsHexMatch, stripHash_lower]
  generalize stripHash s = b
  rcases b with _ | ⟨a1, _ | ⟨a2, _ | ⟨a3, _ | ⟨a4, _ | ⟨a5, _ | ⟨a6, _ | ⟨a7, tl⟩⟩⟩⟩⟩⟩⟩
  · rfl
  · rfl
  · rfl
  · rfl
  · rfl
  · rfl
  · show (if isHexCharCI (jsToLowerChar a1) && isHexCharCI (jsToLowerChar a2) &&
        isHexCharCI (jsToLowerChar a3) && isHexCharCI (jsToLowerChar a4) &&
        isHexCharCI (jsToLowerChar a5) && isHexCharCI (jsToLowerChar a6) then
          some (hexCharVal (jsToLowerChar a1) * 16 + hexCharVal (jsToLowerChar a2),
                hexCharVal (jsToLowerChar a3) * 16 + hexCharVal (jsToLowerChar a4),
                hexCharVal (jsToLowerChar a5) * 16 + hexCharVal (jsToLowerChar a6))
        else none).isSome =
      (if isHexCharCI a1 && isHexCharCI a2 && isHexCharCI a3 && isHexCharCI a4 &&
        isHexCharCI a5 && isHexCharCI a6 then
          some (hexCharVal a1 * 16 + hexCharVal a2, hexCharVal a3 * 16 + hexCharVal a4,
                hexCharVal a5 * 16 + hexCharVal a6)
        else none).isSome
    simp only [isHexCharCI_lower]
    rcases Bool.eq_false_or_eq_true (isHexCharCI a1 && isHexCharCI a2 && isHexCharCI a3 &&
      isHexCharCI a4 && isHexCharCI a5 && isHexCharCI a6) with hC | hC <;>
      rw [hC] <;> rfl
  · rfl

/-- C10: on a query that the six-hex-digit pattern rejects,
`hexToRgb` falls back to `(0, 0, 0)`, and — over a grid of well-formed
colors, which a malformed query can never match case-insensitively —
`findColorPosition` returns the position of the grid color nearest to
black rather than failing. -/
theorem findColorPosition_malformed (grid : List JSStr) (q : JSStr)
    (hq : jsHexMatch q = none)
    (hg : ∀ c ∈ grid, (jsHexMatch c).isSome = true) :
    hexToRgb q = (0, 0, 0) ∧
    (grid ≠ [] →
      ∃ i, i < grid.length ∧
        (∀ j, j < grid.length →
          (gridDists grid (0, 0, 0)).getD i 0 ≤ (gridDists grid (0, 0, 0)).getD j 0) ∧
        (∀ j, j < grid.length →
          (gridDists grid (0, 0, 0)).getD j 0 = (gridDists grid (0, 0, 0)).getD i 0 →
            i ≤ j) ∧
        findColorPosition grid q = ⟨((i / 20 : Nat) : Int), ((i % 20 : Nat) : Int)⟩) := by
  have h0 : hexToRgb q = (0, 0, 0) := by rw [hexToRgb, hq]; rfl
  refine ⟨h0, fun hne => ?_⟩
  have hnone : findIndexCI q grid = none := by
    cases hf : findIndexCI q grid with
    | none => rfl
    | some i =>
      obtain ⟨h1, h2, _⟩ := findIndexCI_some q grid i hf
      have hmem : grid.getD i [] ∈ grid := by
        rw [List.getD_eq_getElem grid [] h1]; exact List.getElem_mem h1
      have heqlow : jsToLower (grid.getD i []) = jsToLower q := by
        rw [ciMatches] at h2; exact beq_iff_eq.mp h2
      have hsome := hg _ hmem
      rw [← jsHexMatch_isSome_lower (grid.getD i []), heqlow,
        jsHexMatch_isSome_lower q, hq] at hsome
      simp at hsome
  obtain ⟨hlt, heq⟩ := findColorPosition_fallback grid q hnone hne
  rw [h0] at hlt heq
  refine ⟨firstMinIdx (gridDists grid (0, 0, 0)), hlt, ?_, ?_, heq⟩
  · intro j hj
    have hm := listMin_getD (gridDists grid (0, 0, 0)) (by
      intro h1; rw [gridDists] at h1; exact hne (List.map_eq_nil_iff.mp h1))
    refine listMin_le _ _ hm j ?_
    rw [gridDists, List.length_map]
    exact hj
  · intro j hj hv
    refine firstMinIdx_first _ j ?_ hv
    rw [gridDists, List.length_map]
    exact hj

/-- C10 witness: looking up the malformed one-character string `"z"`
in the one-entry grid `["#FF0000"]` yields black as fallback RGB and
the nearest-to-black position. -/
theorem findColorPosition_malformed_witness :
    hexToRgb [122] = (0, 0, 0) ∧
    ([[35, 70, 70, 48, 48, 48, 48]] ≠ ([] : List JSStr) →
      ∃ i, i < ([[35, 70, 70, 48, 48, 48, 48]] : List JSStr).length ∧
        (∀ j, j < ([[35, 70, 70, 48, 48, 48, 48]] : List JSStr).length →
          (gridDists [[35, 70, 70, 48, 48, 48, 48]] (0, 0, 0)).getD i 0 ≤
            (gridDists [[35, 70, 70, 48, 48, 48, 48]] (0, 0, 0)).getD j 0) ∧
        (∀ j, j < ([[35, 70, 70, 48, 48, 48, 48]] : List JSStr).length →
          (gridDists [[35, 70, 70, 48, 48, 48, 48]] (0, 0, 0)).getD j 0 =
            (gridDists [[35, 70, 70, 48, 48, 48, 48]] (0, 0, 0)).getD i 0 → i ≤ j) ∧
        findColorPosition [[35, 70, 70, 48, 48, 48, 48]] [122] =
          ⟨((i / 20 : Nat) : Int), ((i % 20 : Nat) : Int)⟩) :=
  findColorPosition_malformed [[35, 70, 70, 48, 48, 48, 48]] [122] (by decide) (by decide)

end Colordle
